import Mathlib

/-!
Verification of the travel-agency record-management application
(`database.py`, `gui.py`) against its natural-language specification.

The persistent store is shallowly embedded as a `DB` record of lists, one
list per table.  Each domain operation of the source is translated into a
pure function from `DB` to `DB` (or `Except DbError DB` when the source
raises).  Conventions of the embedding:

* `Numeric(10, 2)` money columns and Python numbers are abstracted as exact
  rationals (`ℚ`); the float literal `1.2` of the pricing rule becomes `6/5`.
* Client-facing calendar dates (`birth_date`, `passport_expiry`) are
  `(year, month, day)` triples compared lexicographically, which agrees with
  Python `datetime.date` comparison on every date Python can construct.
  Booking dates enter the code only through comparison and day differences,
  so they are abstracted as integer day numbers (Python `date.toordinal`).
* Raised exceptions become `Except.error` with a `DbError` constructor that
  names the error class of the specification taxonomy; the Russian message
  text is dropped.  An operation that raises and rolls back is modelled as
  returning the error and leaving the state untouched.
* SQLAlchemy session semantics are modelled explicitly where they matter:
  a pending `session.add` becomes visible to every later query of the same
  session because the query autoflushes it (see `Gui.add_payment`).
-/

namespace TravelAgency

/-- Error taxonomy of the specification (§7).  `DataError` messages of the
source are mapped to the constructor naming their meaning; `CheckViolation`
stands for a storage-level `IntegrityError` raised by a CHECK constraint. -/
inductive DbError where
  | NotFound
  | DuplicateKey
  | HasDependents
  | ValidationFailed
  | CheckViolation
  deriving DecidableEq

/-- A Python `datetime.date`: a `(year, month, day)` triple. -/
structure PyDate where
  year : Int
  month : Nat
  day : Nat
  deriving DecidableEq

/-- Python `date` comparison: lexicographic on `(year, month, day)`
(equivalent to ordinal comparison on all constructible dates). -/
def PyDate.blt (a b : PyDate) : Bool :=
  if a.year < b.year then true
  else if b.year < a.year then false
  else if a.month < b.month then true
  else if b.month < a.month then false
  else a.day < b.day

/-- `a <= b` on dates, i.e. `¬ (b < a)` for the total date order. -/
def PyDate.ble (a b : PyDate) : Bool :=
  !(PyDate.blt b a)

/-- `countries` table (`database.py`, class `Country`). -/
structure Country where
  country_id : Nat
  name : String
  visa_required : Bool
  deriving DecidableEq

/-- `cities` table (`database.py`, class `City`). -/
structure City where
  city_id : Nat
  country_id : Nat
  name : String
  is_popular : Bool
  deriving DecidableEq

/-- `hotels` table (`database.py`, class `Hotel`). -/
structure Hotel where
  hotel_id : Nat
  city_id : Nat
  name : String
  stars : Nat
  beach_line : Bool
  deriving DecidableEq

/-- `tour_types` table (`database.py`, class `TourType`). -/
structure TourType where
  type_id : Nat
  name : String
  description : String
  deriving DecidableEq

/-- `tours` table (`database.py`, class `Tour`). -/
structure Tour where
  tour_id : Nat
  type_id : Nat
  title : String
  description : String
  base_price : ℚ
  is_active : Bool
  deriving DecidableEq

/-- `tour_hotels` join table (`database.py`, class `TourHotel`). -/
structure TourHotel where
  tour_id : Nat
  hotel_id : Nat
  nights : Nat
  deriving DecidableEq

/-- The `client_data` dictionary handed to `add_client`: every `clients`
column except the surrogate key. -/
structure ClientData where
  first_name : String
  last_name : String
  name_latin : Option String
  passport_number : String
  passport_expiry : PyDate
  birth_date : PyDate
  gender : String
  phone : String
  email : Option String
  deriving DecidableEq

/-- `clients` table (`database.py`, class `Client`): the data columns plus
the surrogate key assigned on flush. -/
structure Client extends ClientData where
  client_id : Nat
  deriving DecidableEq

/-- `employees` table (`database.py`, class `Employee`). -/
structure Employee where
  employee_id : Nat
  first_name : String
  last_name : String
  position : String
  hire_date : PyDate
  salary : ℚ
  is_active : Bool
  deriving DecidableEq

/-- `bookings` table (`database.py`, class `Booking`).  Departure and
return dates are integer day numbers (`date.toordinal`). -/
structure Booking where
  booking_id : Nat
  client_id : Nat
  tour_id : Nat
  employee_id : Nat
  departure_date : Int
  return_date : Int
  total_price : ℚ
  status : String
  is_paid : Bool
  has_prepayment : Bool
  deriving DecidableEq

/-- `payments` table (`database.py`, class `Payment`). -/
structure Payment where
  payment_id : Nat
  booking_id : Nat
  amount : ℚ
  method : String
  transaction_id : Option String
  deriving DecidableEq

/-- `reviews` table (`database.py`, class `Review`). -/
structure Review where
  review_id : Nat
  tour_id : Nat
  client_id : Nat
  rating : Nat
  comment : String
  deriving DecidableEq

/-- The two roles of `database.py`, enum `UserRole`. -/
inductive UserRole where
  | manager
  | admin
  deriving DecidableEq

/-- `users` table (`database.py`, class `User`). -/
structure User where
  user_id : Nat
  username : String
  password_hash : String
  role : UserRole
  employee_id : Option Nat
  is_active : Bool
  deriving DecidableEq

/-- The relational store: one list per table of the schema. -/
structure DB where
  users : List User
  countries : List Country
  cities : List City
  hotels : List Hotel
  tour_types : List TourType
  tours : List Tour
  tour_hotels : List TourHotel
  clients : List Client
  employees : List Employee
  bookings : List Booking
  payments : List Payment
  reviews : List Review
  deriving DecidableEq

/-- The empty store. -/
def emptyDB : DB :=
  { users := [], countries := [], cities := [], hotels := [], tour_types := []
    tours := [], tour_hotels := [], clients := [], employees := []
    bookings := [], payments := [], reviews := [] }

/-- Surrogate key assigned by the database to the next `payments` row. -/
def freshPaymentId (db : DB) : Nat :=
  db.payments.foldl (fun m p => max m p.payment_id) 0 + 1

/-- The `booking.payments` relationship: all payment rows whose
`booking_id` column references the booking. -/
def paymentsOf (db : DB) (booking_id : Nat) : List Payment :=
  db.payments.filter (fun p => p.booking_id == booking_id)

namespace Gui

/-- `TravelAgencyApp.add_payment` (`gui.py`).  The source first executes
`session.add(payment)` and only then `session.query(Booking).get(booking_id)`;
that query autoflushes the pending payment row, so the subsequent lazy load
of `booking.payments` already contains the new payment when the source
computes `sum(p.amount for p in booking.payments) + amount`.  The embedding
therefore inserts the payment into the store before the booking lookup and
sums over the store that already holds it.  A non-positive amount is
rejected with a warning (state unchanged); a missing booking raises
(`None.payments`) and the session rolls back, undoing the flush. -/
def add_payment (db : DB) (booking_id : Nat) (amount : ℚ)
    (method : String) (transaction_id : String) : DB :=
  if amount ≤ 0 then db
  else
    let payment : Payment :=
      { payment_id := freshPaymentId db, booking_id := booking_id
        amount := amount, method := method
        transaction_id := if transaction_id == "" then none else some transaction_id }
    let flushed : DB := { db with payments := db.payments ++ [payment] }
    match flushed.bookings.find? (fun b => b.booking_id == booking_id) with
    | none => db
    | some b =>
      let total_paid : ℚ := ((paymentsOf flushed booking_id).map Payment.amount).sum + amount
      if b.total_price ≤ total_paid then
        { flushed with
          bookings := flushed.bookings.map (fun bb =>
            if bb.booking_id == booking_id then { bb with status := "paid" } else bb) }
      else flushed

end Gui

/-- Python truthiness of `client_data.get('email')`: present and non-empty. -/
def truthy : Option String → Bool
  | none => false
  | some s => s != ""

/-- Surrogate key assigned by the database to the next `clients` row. -/
def freshClientId (db : DB) : Nat :=
  db.clients.foldl (fun m c => max m c.client_id) 0 + 1

namespace Database

/-- The fall-through branch of `add_client` (`database.py`): construct the
row, `session.add`, `session.flush` (which assigns the surrogate key), and
return the persisted client. -/
def insert_new_client (db : DB) (data : ClientData) : DB × Nat :=
  let new_id := freshClientId db
  ({ db with clients := db.clients ++ [{ toClientData := data, client_id := new_id }] },
   new_id)

/-- `add_client` (`database.py`): raises `DataError` (duplicate key) when a
client with the same passport number exists, or, when the given email is
truthy, when a client with the same email exists; otherwise persists the
row and returns it. -/
def add_client (db : DB) (data : ClientData) : Except DbError (DB × Nat) :=
  match db.clients.find? (fun c => c.passport_number == data.passport_number) with
  | some _ => .error .DuplicateKey
  | none =>
    if truthy data.email then
      match db.clients.find? (fun c => c.email == data.email) with
      | some _ => .error .DuplicateKey
      | none => .ok (insert_new_client db data)
    else .ok (insert_new_client db data)

/-- `delete_client` (`database.py`): raises `DataError` (not found) when no
such client, raises `DataError` (has dependents) when any booking references
the client, otherwise `session.delete(client)`; the `cascade="all,
delete-orphan"` relationships of `Client` then also remove the client's
bookings (none are left at this point) and reviews. -/
def delete_client (db : DB) (client_id : Nat) : Except DbError DB :=
  match db.clients.find? (fun c => c.client_id == client_id) with
  | none => .error .NotFound
  | some _ =>
    match db.bookings.find? (fun b => b.client_id == client_id) with
    | some _ => .error .HasDependents
    | none =>
      .ok { db with
            clients := db.clients.filter (fun c => c.client_id != client_id)
            bookings := db.bookings.filter (fun b => b.client_id != client_id)
            reviews := db.reviews.filter (fun r => r.client_id != client_id) }

/-- The list of status values admitted by the `bookings` CHECK constraint
`status IN ('confirmed', 'paid', 'cancelled', 'completed')`. -/
def bookingStatuses : List String := ["confirmed", "paid", "cancelled", "completed"]

/-- Inserting a row into `bookings` (`database.py`, class `Booking`;
used by `TravelAgencyApp.show_add_booking_dialog`).  The storage layer
enforces the table's CHECK constraints `return_date > departure_date` and
the status enumeration; a violating insert raises `IntegrityError` and the
unit of work rolls back, persisting nothing. -/
def insert_booking (db : DB) (b : Booking) : Except DbError DB :=
  if b.return_date ≤ b.departure_date then .error .CheckViolation
  else if !(bookingStatuses.contains b.status) then .error .CheckViolation
  else .ok { db with bookings := db.bookings ++ [b] }

/-- `get_user_by_username` (`database.py`). -/
def get_user_by_username (db : DB) (username : String) : Option User :=
  db.users.find? (fun u => u.username == username)

/-- `authenticate_user` (`database.py`).  `checkpw password hash` stands for
`bcrypt.checkpw`, comparing the plaintext password against the stored
salted hash. -/
def authenticate_user (checkpw : String → String → Bool) (db : DB)
    (username password : String) : Option User :=
  match get_user_by_username db username with
  | some user => if checkpw password user.password_hash && user.is_active
                 then some user else none
  | none => none

end Database

namespace Gui

/-- `TravelAgencyApp.delete_client` (`gui.py`): after the confirmation
dialog, the client is looked up and deleted with no booking check; the
schema-level cascades then remove the client's bookings and reviews, and
the bookings' own cascade removes their payments. -/
def delete_client (db : DB) (client_id : Nat) : Except DbError DB :=
  match db.clients.find? (fun c => c.client_id == client_id) with
  | none => .error .NotFound
  | some _ =>
    let gone := db.bookings.filter (fun b => b.client_id == client_id)
    .ok { db with
          clients := db.clients.filter (fun c => c.client_id != client_id)
          bookings := db.bookings.filter (fun b => b.client_id != client_id)
          reviews := db.reviews.filter (fun r => r.client_id != client_id)
          payments := db.payments.filter (fun p =>
            !(gone.any (fun b => b.booking_id == p.booking_id))) }

/-- `TravelAgencyApp.delete_country` (`gui.py`): blocked when the country
has related cities, otherwise deleted; no cascade. -/
def delete_country (db : DB) (country_id : Nat) : Except DbError DB :=
  match db.countries.find? (fun c => c.country_id == country_id) with
  | none => .error .NotFound
  | some _ =>
    if db.cities.any (fun c => c.country_id == country_id) then .error .HasDependents
    else .ok { db with countries := db.countries.filter (fun c => c.country_id != country_id) }

/-- `TravelAgencyApp.delete_city` (`gui.py`): blocked when the city has
related hotels, otherwise deleted; no cascade. -/
def delete_city (db : DB) (city_id : Nat) : Except DbError DB :=
  match db.cities.find? (fun c => c.city_id == city_id) with
  | none => .error .NotFound
  | some _ =>
    if db.hotels.any (fun h => h.city_id == city_id) then .error .HasDependents
    else .ok { db with cities := db.cities.filter (fun c => c.city_id != city_id) }

/-- `TravelAgencyApp.delete_hotel` (`gui.py`): blocked when the hotel is
used in tours (`hotel.tours`, i.e. rows of `tour_hotels`), otherwise
deleted; no cascade. -/
def delete_hotel (db : DB) (hotel_id : Nat) : Except DbError DB :=
  match db.hotels.find? (fun h => h.hotel_id == hotel_id) with
  | none => .error .NotFound
  | some _ =>
    if db.tour_hotels.any (fun th => th.hotel_id == hotel_id) then .error .HasDependents
    else .ok { db with hotels := db.hotels.filter (fun h => h.hotel_id != hotel_id) }

/-- `TravelAgencyApp.delete_tour` (`gui.py`): blocked when the tour has
related bookings, otherwise deleted; no cascade. -/
def delete_tour (db : DB) (tour_id : Nat) : Except DbError DB :=
  match db.tours.find? (fun t => t.tour_id == tour_id) with
  | none => .error .NotFound
  | some _ =>
    if db.bookings.any (fun b => b.tour_id == tour_id) then .error .HasDependents
    else .ok { db with tours := db.tours.filter (fun t => t.tour_id != tour_id) }

/-- `TravelAgencyApp.delete_employee` (`gui.py`): blocked when the employee
has related bookings, otherwise deleted; no cascade. -/
def delete_employee (db : DB) (employee_id : Nat) : Except DbError DB :=
  match db.employees.find? (fun e => e.employee_id == employee_id) with
  | none => .error .NotFound
  | some _ =>
    if db.bookings.any (fun b => b.employee_id == employee_id) then .error .HasDependents
    else .ok { db with employees := db.employees.filter (fun e => e.employee_id != employee_id) }

/-- `TravelAgencyApp.toggle_tour_status` (`gui.py`): flip `is_active` of the
tour with the given key (primary keys are unique, so at most one row
matches); a missing tour leaves the store unchanged. -/
def toggle_tour_status (db : DB) (tour_id : Nat) : DB :=
  { db with tours := db.tours.map (fun t =>
      if t.tour_id == tour_id then { t with is_active := !t.is_active } else t) }

/-- `TravelAgencyApp.toggle_city_popular` (`gui.py`): flip `is_popular` of
the city with the given key. -/
def toggle_city_popular (db : DB) (city_id : Nat) : DB :=
  { db with cities := db.cities.map (fun c =>
      if c.city_id == city_id then { c with is_popular := !c.is_popular } else c) }

/-- `TravelAgencyApp.toggle_hotel_beach_line` (`gui.py`): flip `beach_line`
of the hotel with the given key. -/
def toggle_hotel_beach_line (db : DB) (hotel_id : Nat) : DB :=
  { db with hotels := db.hotels.map (fun h =>
      if h.hotel_id == hotel_id then { h with beach_line := !h.beach_line } else h) }

/-- `TravelAgencyApp.update_booking_total` (`gui.py`).  `hotels` is the
tour's `tour.hotels` association in iteration order, each element the
joined hotel together with the row's `nights`.  The float surcharge `1.2`
is the exact rational `6/5`.  When the return date is not after the
departure the total field is cleared (`none`). -/
def update_booking_total (base_price : ℚ) (hotels : List (Hotel × Nat))
    (departure return_date : Int) : Option ℚ :=
  if return_date ≤ departure then none
  else
    let total := hotels.foldl (fun total th =>
      let total := total + (th.1.stars : ℚ) * 1000 * (th.2 : ℚ)
      if th.1.beach_line then total * (6 / 5) else total) base_price
    let days : Int := return_date - departure
    some (total * ((days : ℚ) / 7))

/-- `ClientValidator`-style age computation of
`TravelAgencyApp.validate_dates` (`gui.py`): `today.year - birth.year`
minus one when `(today.month, today.day) < (birth.month, birth.day)`. -/
def computeAge (today birth : PyDate) : Int :=
  today.year - birth.year -
    (if today.month < birth.month ∨ (today.month = birth.month ∧ today.day < birth.day)
     then 1 else 0)

/-- `TravelAgencyApp.validate_dates` (`gui.py`): rejects a birth date in the
future, an expired passport, an age below 18, and an age above 120.  The
source reads the current date from the clock; the embedding takes `today`
as a parameter. -/
def validate_dates (today birth_date passport_expiry : PyDate) :
    Except DbError Unit :=
  if PyDate.blt today birth_date then .error .ValidationFailed
  else if PyDate.ble passport_expiry today then .error .ValidationFailed
  else
    let age := computeAge today birth_date
    if age < 18 then .error .ValidationFailed
    else if age > 120 then .error .ValidationFailed
    else .ok ()

end Gui

/-- Specification-side restatement of the pricing loop of §4.3, written as
a recursion over the association list exactly following the spec text:
start from the base price; for each `(hotel, nights)` add
`stars * 1000 * nights` and then, if the hotel is beach line, multiply the
running total by `1.2`. -/
def specHotelFold : ℚ → List (Hotel × Nat) → ℚ
  | total, [] => total
  | total, (h, nights) :: rest =>
    specHotelFold
      (if h.beach_line then (total + (h.stars : ℚ) * 1000 * (nights : ℚ)) * (6 / 5)
       else total + (h.stars : ℚ) * 1000 * (nights : ℚ)) rest

/-- Specification-side booking total of §4.3: the hotel fold multiplied by
`days_in_range / 7` with `days_in_range = returnDate - departureDate`. -/
def specBookingTotal (base_price : ℚ) (hotels : List (Hotel × Nat))
    (departure return_date : Int) : ℚ :=
  specHotelFold base_price hotels * (((return_date - departure : Int) : ℚ) / 7)

/-- A booking with total price 100, no payments yet, status `confirmed`:
the input of the specification's payment example. -/
def exampleBooking : Booking :=
  { booking_id := 1, client_id := 1, tour_id := 1, employee_id := 1
    departure_date := 0, return_date := 7, total_price := 100
    status := "confirmed", is_paid := false, has_prepayment := false }

/-- Store holding exactly the example booking and no payments. -/
def exampleBookingDB : DB :=
  { emptyDB with bookings := [exampleBooking] }

/-- The hotel of the specification's pricing example: three stars, on the
beach line. -/
def exampleHotel : Hotel :=
  { hotel_id := 1, city_id := 1, name := "Example", stars := 3, beach_line := true }

/-- Claim C1, behavior of the code at the claim's own example input: on a
booking with `total_price = 100`, status `confirmed` and no prior payments,
recording a single payment of 50 already sets the status to `paid` (and
stores exactly the one payment of 50).  The pending payment is autoflushed
into `booking.payments` before the source sums them, so
`sum(p.amount for p in booking.payments) + amount` counts the new payment
twice: `50 + 50 = 100 ≥ 100`.  The claim says the recomputed sum is 50 and
the status stays `confirmed`. -/
theorem add_payment_autoflush_double_count :
    ((Gui.add_payment exampleBookingDB 1 50 "cash" "").bookings.map Booking.status)
      = ["paid"]
    ∧ ((Gui.add_payment exampleBookingDB 1 50 "cash" "").payments.map Payment.amount)
      = [50] := by
  refine ⟨?_, ?_⟩ <;>
    norm_num [Gui.add_payment, exampleBookingDB, emptyDB, exampleBooking, freshPaymentId,
      paymentsOf, List.find?]

/-- The pricing loop of `update_booking_total` is the fold of the
specification text, for every starting total. -/
theorem foldl_eq_specHotelFold (hotels : List (Hotel × Nat)) (total : ℚ) :
    hotels.foldl (fun total th =>
        let total := total + (th.1.stars : ℚ) * 1000 * (th.2 : ℚ)
        if th.1.beach_line then total * (6 / 5) else total) total
      = specHotelFold total hotels := by
  induction hotels generalizing total with
  | nil => rfl
  | cons th rest ih =>
    cases th with
    | mk h nights => rw [List.foldl_cons, ih]; rfl

/-- Claim C2: for every tour association list and every date range with
`returnDate > departureDate`, the booking total computed by
`update_booking_total` is exactly the §4.3 rule (base price, then per hotel
add `stars * 1000 * nights` and multiply the running total by `1.2` when
the hotel is beach line, finally multiply by `days / 7`); in particular the
specification's example — base 100, one three-star beach-line hotel for two
nights, a seven-day range — yields 7320. -/
theorem update_booking_total_matches_pricing_rule :
    (∀ (base_price : ℚ) (hotels : List (Hotel × Nat)) (departure return_date : Int),
        departure < return_date →
        Gui.update_booking_total base_price hotels departure return_date
          = some (specBookingTotal base_price hotels departure return_date))
    ∧ Gui.update_booking_total 100 [(exampleHotel, 2)] 0 7 = some 7320 := by
  constructor
  · intro base_price hotels departure return_date h
    rw [Gui.update_booking_total, if_neg (by omega)]
    simp only [specBookingTotal, foldl_eq_specHotelFold]
  · norm_num [Gui.update_booking_total, exampleHotel]

/-- Witness for C2 at concrete inputs: the seven-day example range with the
example hotel. -/
theorem update_booking_total_matches_pricing_rule_witness :
    (0 : Int) < 7
    ∧ Gui.update_booking_total 100 [(exampleHotel, 2)] 0 7
        = some (specBookingTotal 100 [(exampleHotel, 2)] 0 7) :=
  ⟨by norm_num,
   update_booking_total_matches_pricing_rule.1 100 [(exampleHotel, 2)] 0 7 (by norm_num)⟩

/-- Claim C3: the domain-level `delete_client` fails with `NotFound` when no
client carries the id, fails with `HasDependents` when any booking
references the client, and otherwise succeeds, removing exactly the client
and that client's reviews and leaving every other table unchanged (failures
return before any mutation, so a failing call changes no record). -/
theorem delete_client_contract (db : DB) (cid : Nat) :
    ((∀ c ∈ db.clients, c.client_id ≠ cid) →
        Database.delete_client db cid = .error .NotFound)
    ∧ ((∃ c ∈ db.clients, c.client_id = cid) → (∃ b ∈ db.bookings, b.client_id = cid) →
        Database.delete_client db cid = .error .HasDependents)
    ∧ ((∃ c ∈ db.clients, c.client_id = cid) → (∀ b ∈ db.bookings, b.client_id ≠ cid) →
        ∃ db', Database.delete_client db cid = .ok db'
          ∧ (∀ x : Client, x ∈ db'.clients ↔ x ∈ db.clients ∧ x.client_id ≠ cid)
          ∧ (∀ x : Review, x ∈ db'.reviews ↔ x ∈ db.reviews ∧ x.client_id ≠ cid)
          ∧ db'.bookings = db.bookings
          ∧ db'.users = db.users ∧ db'.countries = db.countries
          ∧ db'.cities = db.cities ∧ db'.hotels = db.hotels
          ∧ db'.tour_types = db.tour_types ∧ db'.tours = db.tours
          ∧ db'.tour_hotels = db.tour_hotels ∧ db'.employees = db.employees
          ∧ db'.payments = db.payments) := by
  refine ⟨?_, ?_, ?_⟩
  · intro h
    have hf : db.clients.find? (fun c => c.client_id == cid) = none :=
      List.find?_eq_none.mpr (fun c hc => by simpa using h c hc)
    simp [Database.delete_client, hf]
  · rintro ⟨c, hc, rfl⟩ ⟨b, hb, hbid⟩
    have h1 : (db.clients.find? (fun x => x.client_id == c.client_id)).isSome :=
      List.find?_isSome.mpr ⟨c, hc, by simp⟩
    have h2 : (db.bookings.find? (fun x => x.client_id == c.client_id)).isSome :=
      List.find?_isSome.mpr ⟨b, hb, by simp [hbid]⟩
    rw [Option.isSome_iff_exists] at h1 h2
    obtain ⟨c', hc'⟩ := h1
    obtain ⟨b', hb'⟩ := h2
    simp [Database.delete_client, hc', hb']
  · rintro ⟨c, hc, rfl⟩ h2
    have h1 : (db.clients.find? (fun x => x.client_id == c.client_id)).isSome :=
      List.find?_isSome.mpr ⟨c, hc, by simp⟩
    rw [Option.isSome_iff_exists] at h1
    obtain ⟨c', hc'⟩ := h1
    have hfb : db.bookings.find? (fun x => x.client_id == c.client_id) = none :=
      List.find?_eq_none.mpr (fun b hb => by simpa using h2 b hb)
    refine ⟨{ db with
        clients := db.clients.filter (fun x => x.client_id != c.client_id)
        bookings := db.bookings.filter (fun x => x.client_id != c.client_id)
        reviews := db.reviews.filter (fun x => x.client_id != c.client_id) },
      ?_, ?_, ?_, ?_, rfl, rfl, rfl, rfl, rfl, rfl, rfl, rfl, rfl⟩
    · simp [Database.delete_client, hc', hfb]
    · intro x
      simp [List.mem_filter, bne_iff_ne]
    · intro x
      simp [List.mem_filter, bne_iff_ne]
    · exact List.filter_eq_self.mpr (fun b hb => by simpa [bne_iff_ne] using h2 b hb)

/-- Store holding one sample client together with one of their bookings and
one of their reviews. -/
def dbClientWithBooking : DB :=
  { emptyDB with
    clients := [{ first_name := "A", last_name := "B", name_latin := none
                  passport_number := "P1", passport_expiry := ⟨2030, 1, 1⟩
                  birth_date := ⟨1990, 5, 20⟩, gender := "m", phone := "1"
                  email := some "a@b.c", client_id := 1 }]
    bookings := [exampleBooking]
    reviews := [{ review_id := 1, tour_id := 1, client_id := 1, rating := 5
                  comment := "ok" }] }

/-- Store holding the sample client, a review of theirs, and no bookings. -/
def dbClientNoBooking : DB :=
  { dbClientWithBooking with bookings := [] }

/-- Witness for C3: the `HasDependents` branch at a client with one
booking, and the success branch at the same client with the booking
removed. -/
theorem delete_client_contract_witness :
    Database.delete_client dbClientWithBooking 1 = .error .HasDependents
    ∧ (∃ db', Database.delete_client dbClientNoBooking 1 = .ok db'
        ∧ (∀ x : Client, x ∈ db'.clients ↔ x ∈ dbClientNoBooking.clients ∧ x.client_id ≠ 1)
        ∧ (∀ x : Review, x ∈ db'.reviews ↔ x ∈ dbClientNoBooking.reviews ∧ x.client_id ≠ 1)
        ∧ db'.bookings = dbClientNoBooking.bookings
        ∧ db'.users = dbClientNoBooking.users ∧ db'.countries = dbClientNoBooking.countries
        ∧ db'.cities = dbClientNoBooking.cities ∧ db'.hotels = dbClientNoBooking.hotels
        ∧ db'.tour_types = dbClientNoBooking.tour_types ∧ db'.tours = dbClientNoBooking.tours
        ∧ db'.tour_hotels = dbClientNoBooking.tour_hotels
        ∧ db'.employees = dbClientNoBooking.employees
        ∧ db'.payments = dbClientNoBooking.payments) :=
  ⟨(delete_client_contract dbClientWithBooking 1).2.1 (by decide) (by decide),
   (delete_client_contract dbClientNoBooking 1).2.2 (by decide) (by decide)⟩

/-- Claim C4: `add_client` fails with `DuplicateKey` when an existing
client has the same passport number, and likewise when the new client's
email is non-empty and an existing client has the same email; when neither
collision occurs it appends exactly the new client and returns that
client's freshly assigned identifier. -/
theorem add_client_duplicate_contract (db : DB) (data : ClientData) :
    ((∃ a ∈ db.clients, a.passport_number = data.passport_number) →
        Database.add_client db data = .error .DuplicateKey)
    ∧ (∀ s, data.email = some s → s ≠ "" → (∃ a ∈ db.clients, a.email = some s) →
        Database.add_client db data = .error .DuplicateKey)
    ∧ ((∀ a ∈ db.clients, a.passport_number ≠ data.passport_number) →
       (∀ s, data.email = some s → s ≠ "" → ∀ a ∈ db.clients, a.email ≠ some s) →
        ∃ id, Database.add_client db data
          = .ok ({ db with clients := db.clients ++ [{ toClientData := data, client_id := id }] },
                 id)) := by
  refine ⟨?_, ?_, ?_⟩
  · rintro ⟨a, ha, hpass⟩
    have h1 : (db.clients.find? (fun c => c.passport_number == data.passport_number)).isSome :=
      List.find?_isSome.mpr ⟨a, ha, by simp [hpass]⟩
    rw [Option.isSome_iff_exists] at h1
    obtain ⟨a', ha'⟩ := h1
    simp [Database.add_client, ha']
  · rintro s hs hne ⟨a, ha, hae⟩
    cases hfp : db.clients.find? (fun c => c.passport_number == data.passport_number) with
    | some a' => simp [Database.add_client, hfp]
    | none =>
      have ht : truthy data.email = true := by simp [truthy, hs, hne]
      have h2 : (db.clients.find? (fun c => c.email == data.email)).isSome :=
        List.find?_isSome.mpr ⟨a, ha, by simp [hae, hs]⟩
      rw [Option.isSome_iff_exists] at h2
      obtain ⟨a', ha'⟩ := h2
      simp [Database.add_client, hfp, ht, ha']
  · intro hp he
    have hfp : db.clients.find? (fun c => c.passport_number == data.passport_number) = none :=
      List.find?_eq_none.mpr (fun a ha => by simpa using hp a ha)
    refine ⟨freshClientId db, ?_⟩
    by_cases ht : truthy data.email = true
    · obtain ⟨s, hs⟩ : ∃ s, data.email = some s := by
        cases hde : data.email with
        | none => rw [hde] at ht; simp [truthy] at ht
        | some s => exact ⟨s, rfl⟩
      have hsne : s ≠ "" := by
        rw [hs] at ht
        simpa [truthy] using ht
      have hfe : db.clients.find? (fun c => c.email == data.email) = none :=
        List.find?_eq_none.mpr (fun a ha => by
          simpa [hs] using he s hs hsne a ha)
      simp [Database.add_client, hfp, ht, hfe, Database.insert_new_client]
    · simp [Database.add_client, hfp, ht, Database.insert_new_client]

/-- Witness for C4: duplicate passport at the sample store, duplicate email
at the sample store under a fresh passport number, and a successful insert
into the empty store. -/
theorem add_client_duplicate_contract_witness :
    Database.add_client dbClientNoBooking
        { first_name := "C", last_name := "D", name_latin := none
          passport_number := "P1", passport_expiry := ⟨2031, 1, 1⟩
          birth_date := ⟨1991, 6, 21⟩, gender := "f", phone := "2"
          email := none }
      = .error .DuplicateKey
    ∧ Database.add_client dbClientNoBooking
        { first_name := "C", last_name := "D", name_latin := none
          passport_number := "P2", passport_expiry := ⟨2031, 1, 1⟩
          birth_date := ⟨1991, 6, 21⟩, gender := "f", phone := "2"
          email := some "a@b.c" }
      = .error .DuplicateKey
    ∧ (∃ id, Database.add_client emptyDB
        { first_name := "C", last_name := "D", name_latin := none
          passport_number := "P2", passport_expiry := ⟨2031, 1, 1⟩
          birth_date := ⟨1991, 6, 21⟩, gender := "f", phone := "2"
          email := some "c@d.e" }
      = .ok ({ emptyDB with clients := emptyDB.clients ++
               [{ first_name := "C", last_name := "D", name_latin := none
                  passport_number := "P2", passport_expiry := ⟨2031, 1, 1⟩
                  birth_date := ⟨1991, 6, 21⟩, gender := "f", phone := "2"
                  email := some "c@d.e", client_id := id }] }, id)) :=
  ⟨(add_client_duplicate_contract dbClientNoBooking _).1 (by decide),
   (add_client_duplicate_contract dbClientNoBooking _).2.1 "a@b.c" rfl (by decide) (by decide),
   (add_client_duplicate_contract emptyDB _).2.2 (by decide) (by decide)⟩

/-- Claim C5: for each of Country, City, Hotel, Tour and Employee, the
presentation-layer delete of an existing record fails with `HasDependents`
exactly when a dependent exists (a city, hotel, `tour_hotels` row, booking,
booking respectively), and with no dependents succeeds, removing only that
record — every other table of the resulting store is the old one, i.e. no
cascade is performed. -/
theorem delete_guards_uniform_policy (db : DB) (id : Nat) :
    ((∃ c ∈ db.countries, c.country_id = id) →
      (Gui.delete_country db id = .error .HasDependents ↔ ∃ x ∈ db.cities, x.country_id = id)
      ∧ ((∀ x ∈ db.cities, x.country_id ≠ id) →
          Gui.delete_country db id
            = .ok { db with countries := db.countries.filter (fun c => c.country_id != id) }))
    ∧ ((∃ c ∈ db.cities, c.city_id = id) →
      (Gui.delete_city db id = .error .HasDependents ↔ ∃ x ∈ db.hotels, x.city_id = id)
      ∧ ((∀ x ∈ db.hotels, x.city_id ≠ id) →
          Gui.delete_city db id
            = .ok { db with cities := db.cities.filter (fun c => c.city_id != id) }))
    ∧ ((∃ h ∈ db.hotels, h.hotel_id = id) →
      (Gui.delete_hotel db id = .error .HasDependents ↔ ∃ x ∈ db.tour_hotels, x.hotel_id = id)
      ∧ ((∀ x ∈ db.tour_hotels, x.hotel_id ≠ id) →
          Gui.delete_hotel db id
            = .ok { db with hotels := db.hotels.filter (fun h => h.hotel_id != id) }))
    ∧ ((∃ t ∈ db.tours, t.tour_id = id) →
      (Gui.delete_tour db id = .error .HasDependents ↔ ∃ x ∈ db.bookings, x.tour_id = id)
      ∧ ((∀ x ∈ db.bookings, x.tour_id ≠ id) →
          Gui.delete_tour db id
            = .ok { db with tours := db.tours.filter (fun t => t.tour_id != id) }))
    ∧ ((∃ e ∈ db.employees, e.employee_id = id) →
      (Gui.delete_employee db id = .error .HasDependents ↔ ∃ x ∈ db.bookings, x.employee_id = id)
      ∧ ((∀ x ∈ db.bookings, x.employee_id ≠ id) →
          Gui.delete_employee db id
            = .ok { db with employees := db.employees.filter (fun e => e.employee_id != id) })) := by
  refine ⟨?_, ?_, ?_, ?_, ?_⟩
  · rintro ⟨c, hc, rfl⟩
    have h1 : (db.countries.find? (fun x => x.country_id == c.country_id)).isSome :=
      List.find?_isSome.mpr ⟨c, hc, by simp⟩
    rw [Option.isSome_iff_exists] at h1
    obtain ⟨c', hc'⟩ := h1
    constructor
    · rw [show (Gui.delete_country db c.country_id = .error .HasDependents
          ↔ db.cities.any (fun x => x.country_id == c.country_id) = true) by
            simp only [Gui.delete_country, hc']
            cases han : db.cities.any (fun x => x.country_id == c.country_id) <;> simp [han],
          List.any_eq_true]
      simp
    · intro hno
      have han : db.cities.any (fun x => x.country_id == c.country_id) = false :=
        List.any_eq_false.mpr (fun x hx => by simpa using hno x hx)
      simp [Gui.delete_country, hc', han]
  · rintro ⟨c, hc, rfl⟩
    have h1 : (db.cities.find? (fun x => x.city_id == c.city_id)).isSome :=
      List.find?_isSome.mpr ⟨c, hc, by simp⟩
    rw [Option.isSome_iff_exists] at h1
    obtain ⟨c', hc'⟩ := h1
    constructor
    · rw [show (Gui.delete_city db c.city_id = .error .HasDependents
          ↔ db.hotels.any (fun x => x.city_id == c.city_id) = true) by
            simp only [Gui.delete_city, hc']
            cases han : db.hotels.any (fun x => x.city_id == c.city_id) <;> simp [han],
          List.any_eq_true]
      simp
    · intro hno
      have han : db.hotels.any (fun x => x.city_id == c.city_id) = false :=
        List.any_eq_false.mpr (fun x hx => by simpa using hno x hx)
      simp [Gui.delete_city, hc', han]
  · rintro ⟨h, hh, rfl⟩
    have h1 : (db.hotels.find? (fun x => x.hotel_id == h.hotel_id)).isSome :=
      List.find?_isSome.mpr ⟨h, hh, by simp⟩
    rw [Option.isSome_iff_exists] at h1
    obtain ⟨h', hh'⟩ := h1
    constructor
    · rw [show (Gui.delete_hotel db h.hotel_id = .error .HasDependents
          ↔ db.tour_hotels.any (fun x => x.hotel_id == h.hotel_id) = true) by
            simp only [Gui.delete_hotel, hh']
            cases han : db.tour_hotels.any (fun x => x.hotel_id == h.hotel_id) <;> simp [han],
          List.any_eq_true]
      simp
    · intro hno
      have han : db.tour_hotels.any (fun x => x.hotel_id == h.hotel_id) = false :=
        List.any_eq_false.mpr (fun x hx => by simpa using hno x hx)
      simp [Gui.delete_hotel, hh', han]
  · rintro ⟨t, ht, rfl⟩
    have h1 : (db.tours.find? (fun x => x.tour_id == t.tour_id)).isSome :=
      List.find?_isSome.mpr ⟨t, ht, by simp⟩
    rw [Option.isSome_iff_exists] at h1
    obtain ⟨t', ht'⟩ := h1
    constructor
    · rw [show (Gui.delete_tour db t.tour_id = .error .HasDependents
          ↔ db.bookings.any (fun x => x.tour_id == t.tour_id) = true) by
            simp only [Gui.delete_tour, ht']
            cases han : db.bookings.any (fun x => x.tour_id == t.tour_id) <;> simp [han],
          List.any_eq_true]
      simp
    · intro hno
      have han : db.bookings.any (fun x => x.tour_id == t.tour_id) = false :=
        List.any_eq_false.mpr (fun x hx => by simpa using hno x hx)
      simp [Gui.delete_tour, ht', han]
  · rintro ⟨e, he, rfl⟩
    have h1 : (db.employees.find? (fun x => x.employee_id == e.employee_id)).isSome :=
      List.find?_isSome.mpr ⟨e, he, by simp⟩
    rw [Option.isSome_iff_exists] at h1
    obtain ⟨e', he'⟩ := h1
    constructor
    · rw [show (Gui.delete_employee db e.employee_id = .error .HasDependents
          ↔ db.bookings.any (fun x => x.employee_id == e.employee_id) = true) by
            simp only [Gui.delete_employee, he']
            cases han : db.bookings.any (fun x => x.employee_id == e.employee_id) <;> simp [han],
          List.any_eq_true]
      simp
    · intro hno
      have han : db.bookings.any (fun x => x.employee_id == e.employee_id) = false :=
        List.any_eq_false.mpr (fun x hx => by simpa using hno x hx)
      simp [Gui.delete_employee, he', han]

/-- Store with one country, one city in it, one hotel in the city, one tour
using the hotel, one employee, and one booking of the tour handled by the
employee. -/
def dbGeo : DB :=
  { emptyDB with
    countries := [{ country_id := 1, name := "X", visa_required := false }]
    cities := [{ city_id := 1, country_id := 1, name := "Y", is_popular := true }]
    hotels := [exampleHotel]
    tours := [{ tour_id := 1, type_id := 1, title := "T", description := ""
                base_price := 100, is_active := true }]
    tour_hotels := [{ tour_id := 1, hotel_id := 1, nights := 2 }]
    employees := [{ employee_id := 1, first_name := "E", last_name := "F"
                    position := "manager", hire_date := ⟨2020, 1, 1⟩
                    salary := 1000, is_active := true },
                  { employee_id := 2, first_name := "G", last_name := "H"
                    position := "manager", hire_date := ⟨2021, 1, 1⟩
                    salary := 1000, is_active := true }]
    bookings := [exampleBooking] }

/-- Witness for C5: in `dbGeo`, deleting the country (its city depends on
it) fails with `HasDependents`, and deleting employee 2 (no booking
references employee 2) succeeds removing only that employee. -/
theorem delete_guards_uniform_policy_witness :
    Gui.delete_country dbGeo 1 = .error .HasDependents
    ∧ Gui.delete_employee dbGeo 2
        = .ok { dbGeo with employees := dbGeo.employees.filter (fun e => e.employee_id != 2) } :=
  ⟨((delete_guards_uniform_policy dbGeo 1).1 (by decide)).1.mpr (by decide),
   ((delete_guards_uniform_policy dbGeo 2).2.2.2.2 (by decide)).2 (by decide)⟩

/-- Claim C6: an attempted booking insert whose return date is not after
its departure date is rejected by the storage constraint with nothing
persisted, and a successful insert implies `departureDate < returnDate`
(and appends exactly the new row). -/
theorem insert_booking_date_guard (db : DB) (b : Booking) :
    (b.return_date ≤ b.departure_date →
      Database.insert_booking db b = .error .CheckViolation)
    ∧ (∀ db', Database.insert_booking db b = .ok db' →
        b.departure_date < b.return_date ∧ db'.bookings = db.bookings ++ [b]) := by
  constructor
  · intro h
    simp [Database.insert_booking, h]
  · intro db' h
    rw [Database.insert_booking] at h
    by_cases hd : b.return_date ≤ b.departure_date
    · rw [if_pos hd] at h
      exact absurd h (by simp)
    · rw [if_neg hd] at h
      refine ⟨by omega, ?_⟩
      cases hs : Database.bookingStatuses.contains b.status with
      | false => rw [hs] at h; simp at h
      | true =>
        rw [hs] at h
        simp only [Bool.not_true, if_neg] at h
        rw [if_neg (by simp)] at h
        cases h
        rfl

/-- Witness for C6: the example booking with its dates swapped is rejected;
inserting the example booking into the empty store succeeds and the success
branch of the theorem applies to it. -/
theorem insert_booking_date_guard_witness :
    Database.insert_booking emptyDB
        { exampleBooking with departure_date := 7, return_date := 0 }
      = .error .CheckViolation
    ∧ ((0 : Int) < 7
        ∧ ({ emptyDB with bookings := emptyDB.bookings ++ [exampleBooking] } : DB).bookings
            = emptyDB.bookings ++ [exampleBooking]) :=
  ⟨(insert_booking_date_guard emptyDB _).1 (by decide),
   (insert_booking_date_guard emptyDB exampleBooking).2
     { emptyDB with bookings := emptyDB.bookings ++ [exampleBooking] }
     (by simp [Database.insert_booking, exampleBooking, Database.bookingStatuses, emptyDB])⟩

/-- Claim C7: `validate_dates` rejects a client whose computed age today is
17 with a validation failure, and accepts a birth date exactly 18 years
before today (same month and day, year minus 18) provided the passport has
not expired. -/
theorem validate_dates_age_rule (today birth_date passport_expiry : PyDate) :
    (Gui.computeAge today birth_date = 17 →
      Gui.validate_dates today birth_date passport_expiry = .error .ValidationFailed)
    ∧ (PyDate.blt today passport_expiry = true →
      Gui.validate_dates today ⟨today.year - 18, today.month, today.day⟩ passport_expiry
        = .ok ()) := by
  constructor
  · intro h
    cases h1 : PyDate.blt today birth_date with
    | true => simp [Gui.validate_dates, h1]
    | false =>
      cases h2 : PyDate.ble passport_expiry today with
      | true => simp [Gui.validate_dates, h1, h2]
      | false => norm_num [Gui.validate_dates, h1, h2, h]
  · intro hex
    have h1 : PyDate.blt today ⟨today.year - 18, today.month, today.day⟩ = false := by
      rw [PyDate.blt]
      dsimp only
      rw [if_neg (by omega), if_pos (by omega)]
    have h2 : PyDate.ble passport_expiry today = false := by
      rw [PyDate.ble, hex]
      rfl
    have h3 : Gui.computeAge today ⟨today.year - 18, today.month, today.day⟩ = 18 := by
      rw [Gui.computeAge]
      dsimp only
      rw [if_neg (by omega)]
      omega
    norm_num [Gui.validate_dates, h1, h2, h3]

/-- Witness for C7: on 2026-10-12, a client born 2009-03-01 is 17 and
rejected; a client born 2008-10-12 (exactly 18 years before) is accepted
with a passport valid until 2030-01-01. -/
theorem validate_dates_age_rule_witness :
    Gui.validate_dates ⟨2026, 10, 12⟩ ⟨2009, 3, 1⟩ ⟨2030, 1, 1⟩
      = .error .ValidationFailed
    ∧ Gui.validate_dates ⟨2026, 10, 12⟩ ⟨2026 - 18, 10, 12⟩ ⟨2030, 1, 1⟩
      = .ok () :=
  ⟨(validate_dates_age_rule ⟨2026, 10, 12⟩ ⟨2009, 3, 1⟩ ⟨2030, 1, 1⟩).1 (by decide),
   (validate_dates_age_rule ⟨2026, 10, 12⟩ ⟨2009, 3, 1⟩ ⟨2030, 1, 1⟩).2 (by decide)⟩

/-- Claim C8: authentication returns a user exactly when a user with the
given username exists, the supplied plaintext password matches the stored
salted hash (`checkpw` standing for `bcrypt.checkpw`), and the account is
active; in every other case it returns `none`. -/
theorem authenticate_user_iff (checkpw : String → String → Bool) (db : DB)
    (username password : String) (u : User) :
    Database.authenticate_user checkpw db username password = some u
      ↔ Database.get_user_by_username db username = some u
        ∧ checkpw password u.password_hash = true
        ∧ u.is_active = true := by
  cases hg : Database.get_user_by_username db username with
  | none => simp [Database.authenticate_user, hg]
  | some v =>
    simp only [Database.authenticate_user, hg]
    constructor
    · intro h
      by_cases hb : (checkpw password v.password_hash && v.is_active) = true
      · rw [if_pos hb] at h
        obtain ⟨hc, ha⟩ : checkpw password v.password_hash = true ∧ v.is_active = true := by
          simpa using hb
        cases h
        exact ⟨rfl, hc, ha⟩
      · rw [if_neg hb] at h
        exact absurd h (by simp)
    · rintro ⟨h1, h2, h3⟩
      cases h1
      rw [if_pos (by rw [h2, h3]; rfl)]

/-- Claim C9: the presentation-layer `delete_client` deletes a client that
has bookings without raising `HasDependents`; the schema cascade removes
the client's bookings and reviews as well, while the domain-level
`delete_client` refuses the same input with `HasDependents`. -/
theorem gui_delete_client_bypasses_guard (db : DB) (cid : Nat)
    (hc : ∃ c ∈ db.clients, c.client_id = cid)
    (hb : ∃ b ∈ db.bookings, b.client_id = cid) :
    (∃ db', Gui.delete_client db cid = .ok db'
      ∧ (∀ x ∈ db'.clients, Client.client_id x ≠ cid)
      ∧ (∀ x ∈ db'.bookings, Booking.client_id x ≠ cid)
      ∧ (∀ x ∈ db'.reviews, Review.client_id x ≠ cid))
    ∧ Database.delete_client db cid = .error .HasDependents := by
  obtain ⟨c, hcm, rfl⟩ := hc
  obtain ⟨b, hbm, hbid⟩ := hb
  have h1 : (db.clients.find? (fun x => x.client_id == c.client_id)).isSome :=
    List.find?_isSome.mpr ⟨c, hcm, by simp⟩
  rw [Option.isSome_iff_exists] at h1
  obtain ⟨c', hc'⟩ := h1
  have h2 : (db.bookings.find? (fun x => x.client_id == c.client_id)).isSome :=
    List.find?_isSome.mpr ⟨b, hbm, by simp [hbid]⟩
  rw [Option.isSome_iff_exists] at h2
  obtain ⟨b', hb'⟩ := h2
  constructor
  · refine ⟨{ db with
      clients := db.clients.filter (fun x => x.client_id != c.client_id)
      bookings := db.bookings.filter (fun x => x.client_id != c.client_id)
      reviews := db.reviews.filter (fun x => x.client_id != c.client_id)
      payments := db.payments.filter (fun p =>
        !((db.bookings.filter (fun x => x.client_id == c.client_id)).any
            (fun x => x.booking_id == p.booking_id))) },
      ?_, ?_, ?_, ?_⟩
    · simp [Gui.delete_client, hc']
    · intro x hx
      rw [List.mem_filter] at hx
      exact bne_iff_ne.mp hx.2
    · intro x hx
      rw [List.mem_filter] at hx
      exact bne_iff_ne.mp hx.2
    · intro x hx
      rw [List.mem_filter] at hx
      exact bne_iff_ne.mp hx.2
  · simp [Database.delete_client, hc', hb']

/-- Witness for C9: the sample client with one booking and one review is
deleted by the presentation path and refused by the domain path. -/
theorem gui_delete_client_bypasses_guard_witness :
    (∃ db', Gui.delete_client dbClientWithBooking 1 = .ok db'
      ∧ (∀ x ∈ db'.clients, Client.client_id x ≠ 1)
      ∧ (∀ x ∈ db'.bookings, Booking.client_id x ≠ 1)
      ∧ (∀ x ∈ db'.reviews, Review.client_id x ≠ 1))
    ∧ Database.delete_client dbClientWithBooking 1 = .error .HasDependents :=
  gui_delete_client_bypasses_guard dbClientWithBooking 1 (by decide) (by decide)

/-- Every field of a tour except the active flag. -/
def tourFields (t : Tour) : Nat × Nat × String × String × ℚ :=
  (t.tour_id, t.type_id, t.title, t.description, t.base_price)

/-- Every field of a city except the popularity flag. -/
def cityFields (c : City) : Nat × Nat × String :=
  (c.city_id, c.country_id, c.name)

/-- Every field of a hotel except the beach-line flag. -/
def hotelFields (h : Hotel) : Nat × Nat × String × Nat :=
  (h.hotel_id, h.city_id, h.name, h.stars)

/-- Mapping a self-inverse function twice over a list is the identity. -/
theorem map_map_self_inverse {α : Type} (f : α → α) (h : ∀ a, f (f a) = a) :
    ∀ l : List α, (l.map f).map f = l := by
  intro l
  induction l with
  | nil => rfl
  | cons a l ih => simp only [List.map_cons, h a, ih]

/-- Claim C10: each of the three toggle operations is an involution on the
whole store (applying it twice with the same key restores the store, in
particular the original flag value), and a single application changes
nothing but the toggled flag: the projection of every tour (resp. city,
hotel) to its remaining fields is unchanged, in order. -/
theorem toggle_involution (db : DB) (tid cid hid : Nat) :
    Gui.toggle_tour_status (Gui.toggle_tour_status db tid) tid = db
    ∧ (Gui.toggle_tour_status db tid).tours.map tourFields = db.tours.map tourFields
    ∧ Gui.toggle_city_popular (Gui.toggle_city_popular db cid) cid = db
    ∧ (Gui.toggle_city_popular db cid).cities.map cityFields = db.cities.map cityFields
    ∧ Gui.toggle_hotel_beach_line (Gui.toggle_hotel_beach_line db hid) hid = db
    ∧ (Gui.toggle_hotel_beach_line db hid).hotels.map hotelFields = db.hotels.map hotelFields := by
  have ht : ∀ t : Tour,
      (fun t => if t.tour_id == tid then { t with is_active := !t.is_active } else t)
        ((fun t => if t.tour_id == tid then { t with is_active := !t.is_active } else t) t)
      = t := by
    intro t
    by_cases h : (t.tour_id == tid) = true <;> simp [h]
  have hcy : ∀ c : City,
      (fun c => if c.city_id == cid then { c with is_popular := !c.is_popular } else c)
        ((fun c => if c.city_id == cid then { c with is_popular := !c.is_popular } else c) c)
      = c := by
    intro c
    by_cases h : (c.city_id == cid) = true <;> simp [h]
  have hho : ∀ x : Hotel,
      (fun x => if x.hotel_id == hid then { x with beach_line := !x.beach_line } else x)
        ((fun x => if x.hotel_id == hid then { x with beach_line := !x.beach_line } else x) x)
      = x := by
    intro x
    by_cases h : (x.hotel_id == hid) = true <;> simp [h]
  refine ⟨?_, ?_, ?_, ?_, ?_, ?_⟩
  · simp only [Gui.toggle_tour_status]
    rw [map_map_self_inverse _ ht]
  · simp only [Gui.toggle_tour_status, List.map_map]
    refine List.map_congr_left (fun t _ => ?_)
    by_cases h : (t.tour_id == tid) = true <;> simp [tourFields, h, Function.comp]
  · simp only [Gui.toggle_city_popular]
    rw [map_map_self_inverse _ hcy]
  · simp only [Gui.toggle_city_popular, List.map_map]
    refine List.map_congr_left (fun c _ => ?_)
    by_cases h : (c.city_id == cid) = true <;> simp [cityFields, h, Function.comp]
  · simp only [Gui.toggle_hotel_beach_line]
    rw [map_map_self_inverse _ hho]
  · simp only [Gui.toggle_hotel_beach_line, List.map_map]
    refine List.map_congr_left (fun x _ => ?_)
    by_cases h : (x.hotel_id == hid) = true <;> simp [hotelFields, h, Function.comp]

end TravelAgency
